import Mathlib

/-!
Shallow embedding of the wasmi register-machine core: the IR primitives
(`crates/ir/src/primitive.rs`), the store-instruction executors
(`crates/wasmi/src/engine/executor/instrs/store.rs`), the SIMD dispatch
surface (`crates/wasmi/src/engine/executor/instrs/simd.rs`) and the
translator rewrite rules exercised by the translator test suites.

Machine integers are modelled as `Nat` (unsigned) or `Int` (signed) with
explicit range reasoning; fallible Rust functions return `Except`/`Option`
or an explicit outcome type with a `panic` constructor where the source
can abort.
-/

namespace Wasmi

/-- Translation-time error kinds of the IR crate (`enum Error`). -/
inductive Error where
  | BranchOffsetOutOfBounds
  | BlockFuelOutOfBounds
  | ComparatorOutOfBounds
deriving DecidableEq, Repr

/-- Embeds `enum Comparator` from `crates/ir/src/primitive.rs`: the closed
enumeration of conditional-branch comparators, `repr(u32)`, numbered
contiguously from zero in declaration order. -/
inductive Comparator where
  | I32Eq | I32Ne | I32LtS | I32LtU | I32LeS | I32LeU | I32GtS | I32GtU | I32GeS | I32GeU
  | I32And | I32Or | I32Xor | I32AndEqz | I32OrEqz | I32XorEqz
  | I64Eq | I64Ne | I64LtS | I64LtU | I64LeS | I64LeU | I64GtS | I64GtU | I64GeS | I64GeU
  | F32Eq | F32Ne | F32Lt | F32Le | F32Gt | F32Ge
  | F64Eq | F64Ne | F64Lt | F64Le | F64Gt | F64Ge
deriving DecidableEq, Repr

/-- All comparators in declaration order; position = `repr(u32)` ordinal. -/
def Comparator.all : List Comparator :=
  [.I32Eq, .I32Ne, .I32LtS, .I32LtU, .I32LeS, .I32LeU, .I32GtS, .I32GtU, .I32GeS, .I32GeU,
   .I32And, .I32Or, .I32Xor, .I32AndEqz, .I32OrEqz, .I32XorEqz,
   .I64Eq, .I64Ne, .I64LtS, .I64LtU, .I64LeS, .I64LeU, .I64GtS, .I64GtU, .I64GeS, .I64GeU,
   .F32Eq, .F32Ne, .F32Lt, .F32Le, .F32Gt, .F32Ge,
   .F64Eq, .F64Ne, .F64Lt, .F64Le, .F64Gt, .F64Ge]

/-- `cmp as u32`: the declaration-order ordinal of the comparator. -/
def Comparator.toU32 (c : Comparator) : Nat := Comparator.all.indexOf c

/-- `impl TryFrom<u32> for Comparator`: decodes a 32-bit wire value,
validating the range (first declaration whose ordinal matches). -/
def Comparator.tryFromU32 (value : Nat) : Option Comparator := Comparator.all[value]?

/-- Embeds `struct BranchOffset(i32)`: a signed instruction-pointer delta.
The `Int` is meant to stay within the `i32` range; all constructors below
preserve that. -/
structure BranchOffset where
  val : Int
deriving DecidableEq, Repr

/-- `BranchOffset::to_i32`. -/
def BranchOffset.to_i32 (o : BranchOffset) : Int := o.val

/-- Outcome of `BranchOffset::from_src_to_dst`: the Rust function can
return `Ok`, return `Err(Error)`, or hit the `unreachable!` macro. -/
inductive FromSrcToDstResult where
  | ok (offset : BranchOffset)
  | error (e : Error)
  | panic
deriving DecidableEq, Repr

/-- Rust `i64::checked_sub a b`: `some (a - b)` unless the mathematical
difference leaves the `i64` range. -/
def i64_checked_sub (a b : Int) : Option Int :=
  if -(2 ^ 63) ≤ a - b ∧ a - b < 2 ^ 63 then some (a - b) else none

/-- Embeds `BranchOffset::from_src_to_dst`. `src` and `dst` are `Instr`
positions (`u32` values, hence `Nat` arguments expected `< 2^32`). The
source widens both to `i64`, computes `dst.checked_sub(src)` (with an
`unreachable!` on `None`), then narrows with `i32::try_from`, failing with
`Error::BranchOffsetOutOfBounds` if the offset does not fit. -/
def BranchOffset.from_src_to_dst (src dst : Nat) : FromSrcToDstResult :=
  match i64_checked_sub (dst : Int) (src : Int) with
  | none => .panic
  | some offset =>
    if -(2 ^ 31) ≤ offset ∧ offset < 2 ^ 31 then .ok ⟨offset⟩
    else .error .BranchOffsetOutOfBounds

/-- Rust's sign-extending cast `i32 as u64`, for `o` in the `i32` range:
the unique `u64` congruent to `o` modulo `2^64`. -/
def u64_of_i32 (o : Int) : Nat := (o % (2 : Int) ^ 64).toNat

/-- Rust's cast `u32 as i32`: reinterpret the low 32 bits as signed. -/
def i32_of_u32 (n : Nat) : Int :=
  if n < 2 ^ 31 then (n : Int) else (n : Int) - 2 ^ 32

/-- Embeds `struct ComparatorAndOffset`: comparator and 32-bit branch
offset, packable into one `u64` for the constant pool. -/
structure ComparatorAndOffset where
  cmp : Comparator
  offset : BranchOffset
deriving DecidableEq, Repr

/-- Embeds `ComparatorAndOffset::as_u64` exactly as written in the source:
`let hi = self.cmp as u64; let lo = self.offset.to_i32() as u64;
hi << 32 & lo`. Note the cast of `lo` sign-extends and the combining
operator is bitwise AND (`&`), exactly as in the source. `hi` is the enum
ordinal (< 38), so `hi << 32` does not overflow `u64`. -/
def ComparatorAndOffset.as_u64 (x : ComparatorAndOffset) : Nat :=
  let hi := x.cmp.toU32
  let lo := u64_of_i32 x.offset.to_i32
  (hi <<< 32) &&& lo

/-- Embeds `ComparatorAndOffset::from_u64`: high 32 bits decode the
comparator (range-checked), low 32 bits reinterpret as a signed offset. -/
def ComparatorAndOffset.from_u64 (value : Nat) : Option ComparatorAndOffset :=
  let hi := value >>> 32
  let lo := value &&& 0xFFFFFFFF
  (Comparator.tryFromU32 hi).map fun cmp => ⟨cmp, ⟨i32_of_u32 lo⟩⟩

/-- The spec's packing (`hi=comparator, lo=branch_offset_as_i32`,
"reinterpreted as unsigned, in its low 32 bits"): ordinal in the high
word, offset truncated to its low 32 bits, joined with bitwise OR. Stated
from the spec's words, for comparison against `as_u64` above. -/
def ComparatorAndOffset.as_u64_spec (x : ComparatorAndOffset) : Nat :=
  let hi := x.cmp.toU32
  let lo := u64_of_i32 x.offset.to_i32 &&& 0xFFFFFFFF
  (hi <<< 32) ||| lo

/-- Embeds `struct BlockFuel(u32)` together with `BlockFuel::bump_by` as a
state-passing function: the pair holds the Rust return value and the fuel
counter after the call. `bump_by` computes `self.to_u64().checked_add
(amount)` (failing with `BlockFuelOutOfBounds` on `u64` overflow), then
narrows with `u32::try_from` (same error); the counter is assigned only
after both checks succeed, so error paths leave it untouched. -/
def BlockFuel.bump_by (fuel amount : Nat) : Except Error Unit × Nat :=
  if fuel + amount < 2 ^ 64 then
    if fuel + amount < 2 ^ 32 then (.ok (), fuel + amount)
    else (.error .BlockFuelOutOfBounds, fuel)
  else (.error .BlockFuelOutOfBounds, fuel)

/-- Runtime trap codes surfaced by the store/load handlers. -/
inductive TrapCode where
  | MemoryOutOfBounds
  | OutOfFuel
  | UnreachableCodeReached
deriving DecidableEq, Repr

/-- A linear memory: its byte contents, least address first. -/
abbrev Mem : Type := List Nat

/-- Byte `i` of the little-endian encoding of `v`. -/
def byteAt (v i : Nat) : Nat := (v >>> (8 * i)) &&& 255

/-- The `w` little-endian bytes of `v`. -/
def leBytes (w v : Nat) : List Nat := (List.range w).map (byteAt v)

/-- Reassembles a byte list in little-endian order into a `Nat`. -/
def fromLeBytes : List Nat → Nat
  | [] => 0
  | b :: bs => (b &&& 255) + 256 * fromLeBytes bs

/-- Writes the bytes `bs` into `m` starting at index `a`
(`List.set` leaves the list unchanged on out-of-range indices, but all
uses below are bounds-checked first). -/
def writeBytes : Mem → Nat → List Nat → Mem
  | m, _, [] => m
  | m, a, b :: bs => writeBytes (m.set a b) (a + 1) bs

/-- Modelled from the spec: the `UntypedVal::store{8,16,32,64}` family of
the wasmi core crate (not under the sources provided) — an unsigned-width
`w` store writes the `w` low bytes of `value` little-endian at effective
address `address + offset`, and "All store/load handlers end by either
calling `try_next_instr` (on success) or returning a trap (on
out-of-bounds ...)": the write happens only when the addressed range lies
inside the memory, otherwise `TrapCode::MemoryOutOfBounds` is returned
and the memory is untouched. -/
def storeN (w : Nat) (mem : Mem) (address offset value : Nat) : Except TrapCode Mem :=
  if address + offset + w ≤ mem.length then
    .ok (writeBytes mem (address + offset) (leBytes w value))
  else
    .error .MemoryOutOfBounds

/-- Outcome of one store-instruction handler: success, a runtime trap, or
an internal `unreachable_unchecked` abort. -/
inductive StoreOutcome where
  | ok
  | trap (tc : TrapCode)
  | panic
deriving DecidableEq, Repr

/-- Executor state visible to the store handlers: the register file (a
typed view over 64-bit cells, here the raw `u64` values), the cached
default linear memory (index 0), the remaining memories owned by the
`Store`, and the instruction pointer (slot index). -/
structure ExecState where
  regs : Int → Nat
  mem0 : Mem
  extraMems : List Mem
  ip : Nat

/-- Embeds `Executor::execute_store` composed with
`Executor::execute_store_wrap` (`store.rs` lines 110–122 and 169–188):
the trailing `RegisterAndImm32` slot supplies `vreg` and the offset high
bits (already combined into `offset` here), `fetch_optional_memory(2)`
supplies `memIdx`, the bytes are fetched from the default memory when
`memIdx = 0` and through the `Store` resolver otherwise (panicking if the
memory does not exist), and on success `try_next_instr_at(2)` skips the
parameter slot. -/
def execute_store (s : ExecState) (ptr vreg : Int) (offset memIdx w : Nat) :
    StoreOutcome × ExecState :=
  if memIdx = 0 then
    match storeN w s.mem0 (s.regs ptr) offset (s.regs vreg) with
    | .ok m => (.ok, { s with mem0 := m, ip := s.ip + 2 })
    | .error e => (.trap e, s)
  else
    match s.extraMems[memIdx - 1]? with
    | none => (.panic, s)
    | some mem =>
      match storeN w mem (s.regs ptr) offset (s.regs vreg) with
      | .ok m => (.ok, { s with extraMems := s.extraMems.set (memIdx - 1) m, ip := s.ip + 2 })
      | .error e => (.trap e, s)

/-- Embeds `Executor::execute_store_offset16` composed with
`Executor::execute_store_wrap_mem0` (`store.rs` lines 214–228 and
157–167): the 16-bit offset is widened (`Offset64::from(offset)`), the
bytes come from the cached default memory only — no `Store` resolver, no
trailing memory-index parameter — and on success `try_next_instr`
advances the instruction pointer by exactly one slot. -/
def execute_store_offset16 (s : ExecState) (ptr : Int) (offset16 : Nat) (vreg : Int)
    (w : Nat) : StoreOutcome × ExecState :=
  match storeN w s.mem0 (s.regs ptr) offset16 (s.regs vreg) with
  | .ok m => (.ok, { s with mem0 := m, ip := s.ip + 1 })
  | .error e => (.trap e, s)

/-- Embeds `Executor::execute_store_offset16_imm16` (`store.rs` lines
230–247): like `execute_store_offset16` but the stored value is the
widened inline 16-bit immediate (`T::from(value).into()`), given here as
the resulting `u64` cell value. -/
def execute_store_offset16_imm16 (s : ExecState) (ptr : Int) (offset16 value : Nat)
    (w : Nat) : StoreOutcome × ExecState :=
  match storeN w s.mem0 (s.regs ptr) offset16 value with
  | .ok m => (.ok, { s with mem0 := m, ip := s.ip + 1 })
  | .error e => (.trap e, s)

/-- One row of a SIMD dispatch table in
`engine/executor/instrs/simd.rs`: the `Instruction` variant used as the
opcode tag, the executor method it dispatches to, and the pure `simd::`
library function the method applies. -/
structure DispatchRow where
  tag : String
  handler : String
  op : String
deriving DecidableEq, Repr

/-- Embeds the `impl_unary_executors!` table (`simd.rs` lines 64–138),
row for row in source order. -/
def unarySimdDispatch : List DispatchRow :=
  [⟨"V128AnyTrue", "execute_v128_any_true", "v128_any_true"⟩,
   ⟨"I8x16AllTrue", "execute_i8x16_all_true", "i8x16_all_true"⟩,
   ⟨"I8x16Bitmask", "execute_i8x16_bitmask", "i8x16_bitmask"⟩,
   ⟨"I16x8AllTrue", "execute_i16x8_all_true", "i16x8_all_true"⟩,
   ⟨"I16x8Bitmask", "execute_i16x8_bitmask", "i16x8_bitmask"⟩,
   ⟨"I32x4AllTrue", "execute_i32x4_all_true", "i32x4_all_true"⟩,
   ⟨"I32x4Bitmask", "execute_i32x4_bitmask", "i32x4_bitmask"⟩,
   ⟨"I64x2AllTrue", "execute_i64x2_all_true", "i64x2_all_true"⟩,
   ⟨"I64x2Bitmask", "execute_i64x2_bitmask", "i64x2_bitmask"⟩,
   ⟨"I8x16Neg", "execute_i8x16_neg", "i8x16_neg"⟩,
   ⟨"I16x8Neg", "execute_i16x8_neg", "i16x8_neg"⟩,
   ⟨"I16x8Neg", "execute_i32x4_neg", "i32x4_neg"⟩,
   ⟨"I16x8Neg", "execute_i64x2_neg", "i64x2_neg"⟩,
   ⟨"I16x8Neg", "execute_f32x4_neg", "f32x4_neg"⟩,
   ⟨"I16x8Neg", "execute_f64x2_neg", "f64x2_neg"⟩,
   ⟨"I8x16Abs", "execute_i8x16_abs", "i8x16_abs"⟩,
   ⟨"I16x8Abs", "execute_i16x8_abs", "i16x8_abs"⟩,
   ⟨"I16x8Abs", "execute_i32x4_abs", "i32x4_abs"⟩,
   ⟨"I16x8Abs", "execute_i64x2_abs", "i64x2_abs"⟩,
   ⟨"I16x8Abs", "execute_f32x4_abs", "f32x4_abs"⟩,
   ⟨"I16x8Abs", "execute_f64x2_abs", "f64x2_abs"⟩,
   ⟨"I8x16Splat", "execute_i8x16_splat", "i8x16_splat"⟩,
   ⟨"I16x8Splat", "execute_i16x8_splat", "i16x8_splat"⟩,
   ⟨"I32x4Splat", "execute_i32x4_splat", "i32x4_splat"⟩,
   ⟨"I64x2Splat", "execute_i64x2_splat", "i64x2_splat"⟩,
   ⟨"F32x4Splat", "execute_f32x4_splat", "f32x4_splat"⟩,
   ⟨"F64x2Splat", "execute_f64x2_splat", "f64x2_splat"⟩,
   ⟨"I16x8ExtaddPairwiseI8x16S", "execute_i16x8_extadd_pairwise_i8x16_s", "i16x8_extadd_pairwise_i8x16_s"⟩,
   ⟨"I16x8ExtaddPairwiseI8x16U", "execute_i16x8_extadd_pairwise_i8x16_u", "i16x8_extadd_pairwise_i8x16_u"⟩,
   ⟨"I32x4ExtaddPairwiseI16x8S", "execute_i32x4_extadd_pairwise_i16x8_s", "i32x4_extadd_pairwise_i16x8_s"⟩,
   ⟨"I32x4ExtaddPairwiseI16x8U", "execute_i32x4_extadd_pairwise_i16x8_u", "i32x4_extadd_pairwise_i16x8_u"⟩,
   ⟨"F32x4Ceil", "execute_f32x4_ceil", "f32x4_ceil"⟩,
   ⟨"F32x4Floor", "execute_f32x4_floor", "f32x4_floor"⟩,
   ⟨"F32x4Trunc", "execute_f32x4_trunc", "f32x4_trunc"⟩,
   ⟨"F32x4Nearest", "execute_f32x4_nearest", "f32x4_nearest"⟩,
   ⟨"F32x4Sqrt", "execute_f32x4_sqrt", "f32x4_sqrt"⟩,
   ⟨"F64x2Ceil", "execute_f64x2_ceil", "f64x2_ceil"⟩,
   ⟨"F64x2Floor", "execute_f64x2_floor", "f64x2_floor"⟩,
   ⟨"F64x2Trunc", "execute_f64x2_trunc", "f64x2_trunc"⟩,
   ⟨"F64x2Nearest", "execute_f64x2_nearest", "f64x2_nearest"⟩,
   ⟨"F64x2Sqrt", "execute_f64x2_sqrt", "f64x2_sqrt"⟩,
   ⟨"V128Not", "execute_v128_not", "v128_not"⟩,
   ⟨"I8x16Popcnt", "execute_i8x16_popcnt", "i8x16_popcnt"⟩,
   ⟨"i16x8_extend_low_i8x16_s", "execute_i16x8_extend_low_i8x16_s", "i16x8_extend_low_i8x16_s"⟩,
   ⟨"i16x8_extend_high_i8x16_s", "execute_i16x8_extend_high_i8x16_s", "i16x8_extend_high_i8x16_s"⟩,
   ⟨"i16x8_extend_low_i8x16_u", "execute_i16x8_extend_low_i8x16_u", "i16x8_extend_low_i8x16_u"⟩,
   ⟨"i16x8_extend_high_i8x16_u", "execute_i16x8_extend_high_i8x16_u", "i16x8_extend_high_i8x16_u"⟩,
   ⟨"i32x4_extend_low_i16x8_s", "execute_i32x4_extend_low_i16x8_s", "i32x4_extend_low_i16x8_s"⟩,
   ⟨"i32x4_extend_high_i16x8_s", "execute_i32x4_extend_high_i16x8_s", "i32x4_extend_high_i16x8_s"⟩,
   ⟨"i32x4_extend_low_i16x8_u", "execute_i32x4_extend_low_i16x8_u", "i32x4_extend_low_i16x8_u"⟩,
   ⟨"i32x4_extend_high_i16x8_u", "execute_i32x4_extend_high_i16x8_u", "i32x4_extend_high_i16x8_u"⟩,
   ⟨"i64x2_extend_low_i32x4_s", "execute_i64x2_extend_low_i32x4_s", "i64x2_extend_low_i32x4_s"⟩,
   ⟨"i64x2_extend_high_i32x4_s", "execute_i64x2_extend_high_i32x4_s", "i64x2_extend_high_i32x4_s"⟩,
   ⟨"i64x2_extend_low_i32x4_u", "execute_i64x2_extend_low_i32x4_u", "i64x2_extend_low_i32x4_u"⟩,
   ⟨"i64x2_extend_high_i32x4_u", "execute_i64x2_extend_high_i32x4_u", "i64x2_extend_high_i32x4_u"⟩,
   ⟨"I32x4TruncSatF32x4S", "execute_i32x4_trunc_sat_f32x4_s", "i32x4_trunc_sat_f32x4_s"⟩,
   ⟨"I32x4TruncSatF32x4U", "execute_i32x4_trunc_sat_f32x4_u", "i32x4_trunc_sat_f32x4_u"⟩,
   ⟨"F32x4ConvertI32x4S", "execute_f32x4_convert_i32x4_s", "f32x4_convert_i32x4_s"⟩,
   ⟨"F32x4ConvertI32x4U", "execute_f32x4_convert_i32x4_u", "f32x4_convert_i32x4_u"⟩,
   ⟨"I32x4TruncSatF64x2SZero", "execute_i32x4_trunc_sat_f64x2_s_zero", "i32x4_trunc_sat_f64x2_s_zero"⟩,
   ⟨"I32x4TruncSatF64x2UZero", "execute_i32x4_trunc_sat_f64x2_u_zero", "i32x4_trunc_sat_f64x2_u_zero"⟩,
   ⟨"F64x2ConvertLowI32x4S", "execute_f64x2_convert_low_i32x4_s", "f64x2_convert_low_i32x4_s"⟩,
   ⟨"F64x2ConvertLowI32x4U", "execute_f64x2_convert_low_i32x4_u", "f64x2_convert_low_i32x4_u"⟩,
   ⟨"F32x4DemoteF64x2Zero", "execute_f32x4_demote_f64x2_zero", "f32x4_demote_f64x2_zero"⟩,
   ⟨"F64x2PromoteLowF32x4", "execute_f64x2_promote_low_f32x4", "f64x2_promote_low_f32x4"⟩]

/-- Rows 1–30 of the `impl_binary_executors!` table (`simd.rs` lines 140–268), in source order. -/
def binarySimdDispatchA : List DispatchRow :=
  [⟨"I8x16Swizzle", "execute_i8x16_swizzle", "i8x16_swizzle"⟩,
   ⟨"I16x8Q15MulrSatS", "execute_i16x8_q15mulr_sat_s", "i16x8_q15mulr_sat_s"⟩,
   ⟨"I32x4DotI16x8S", "execute_i32x4_dot_i16x8_s", "i32x4_dot_i16x8_s"⟩,
   ⟨"I16x8ExtmulLowI8x16S", "execute_i16x8_extmul_low_i8x16_s", "i16x8_extmul_low_i8x16_s"⟩,
   ⟨"I16x8ExtmulHighI8x16S", "execute_i16x8_extmul_high_i8x16_s", "i16x8_extmul_high_i8x16_s"⟩,
   ⟨"I16x8ExtmulLowI8x16U", "execute_i16x8_extmul_low_i8x16_u", "i16x8_extmul_low_i8x16_u"⟩,
   ⟨"I16x8ExtmulHighI8x16U", "execute_i16x8_extmul_high_i8x16_u", "i16x8_extmul_high_i8x16_u"⟩,
   ⟨"I32x4ExtmulLowI16x8S", "execute_i32x4_extmul_low_i16x8_s", "i32x4_extmul_low_i16x8_s"⟩,
   ⟨"I32x4ExtmulHighI16x8S", "execute_i32x4_extmul_high_i16x8_s", "i32x4_extmul_high_i16x8_s"⟩,
   ⟨"I32x4ExtmulLowI16x8U", "execute_i32x4_extmul_low_i16x8_u", "i32x4_extmul_low_i16x8_u"⟩,
   ⟨"I32x4ExtmulHighI16x8U", "execute_i32x4_extmul_high_i16x8_u", "i32x4_extmul_high_i16x8_u"⟩,
   ⟨"I64x2ExtmulLowI32x4S", "execute_i64x2_extmul_low_i32x4_s", "i64x2_extmul_low_i32x4_s"⟩,
   ⟨"I64x2ExtmulHighI32x4S", "execute_i64x2_extmul_high_i32x4_s", "i64x2_extmul_high_i32x4_s"⟩,
   ⟨"I64x2ExtmulLowI32x4U", "execute_i64x2_extmul_low_i32x4_u", "i64x2_extmul_low_i32x4_u"⟩,
   ⟨"I64x2ExtmulHighI32x4U", "execute_i64x2_extmul_high_i32x4_u", "i64x2_extmul_high_i32x4_u"⟩,
   ⟨"I32x4Add", "execute_i32x4_add", "i32x4_add"⟩,
   ⟨"I32x4Sub", "execute_i32x4_sub", "i32x4_sub"⟩,
   ⟨"I32x4Mul", "execute_i32x4_mul", "i32x4_mul"⟩,
   ⟨"I64x2Add", "execute_i64x2_add", "i64x2_add"⟩,
   ⟨"I64x2Sub", "execute_i64x2_sub", "i64x2_sub"⟩,
   ⟨"I64x2Mul", "execute_i64x2_mul", "i64x2_mul"⟩,
   ⟨"I8x16Eq", "execute_i8x16_eq", "i8x16_eq"⟩,
   ⟨"I8x16Ne", "execute_i8x16_ne", "i8x16_ne"⟩,
   ⟨"I8x16LtS", "execute_i8x16_lt_s", "i8x16_lt_s"⟩,
   ⟨"I8x16LtU", "execute_i8x16_lt_u", "i8x16_lt_u"⟩,
   ⟨"I8x16LeS", "execute_i8x16_le_s", "i8x16_le_s"⟩,
   ⟨"I8x16LeU", "execute_i8x16_le_u", "i8x16_le_u"⟩,
   ⟨"I16x8Eq", "execute_i16x8_eq", "i16x8_eq"⟩,
   ⟨"I16x8Ne", "execute_i16x8_ne", "i16x8_ne"⟩,
   ⟨"I16x8LtS", "execute_i16x8_lt_s", "i16x8_lt_s"⟩]

/-- Rows 31–60 of the `impl_binary_executors!` table (`simd.rs` lines 140–268), in source order. -/
def binarySimdDispatchB : List DispatchRow :=
  [⟨"I16x8LtU", "execute_i16x8_lt_u", "i16x8_lt_u"⟩,
   ⟨"I16x8LeS", "execute_i16x8_le_s", "i16x8_le_s"⟩,
   ⟨"I16x8LeU", "execute_i16x8_le_u", "i16x8_le_u"⟩,
   ⟨"I32x4Eq", "execute_i32x4_eq", "i32x4_eq"⟩,
   ⟨"I32x4Ne", "execute_i32x4_ne", "i32x4_ne"⟩,
   ⟨"I32x4LtS", "execute_i32x4_lt_s", "i32x4_lt_s"⟩,
   ⟨"I32x4LtU", "execute_i32x4_lt_u", "i32x4_lt_u"⟩,
   ⟨"I32x4LeS", "execute_i32x4_le_s", "i32x4_le_s"⟩,
   ⟨"I32x4LeU", "execute_i32x4_le_u", "i32x4_le_u"⟩,
   ⟨"I64x2Eq", "execute_i64x2_eq", "i64x2_eq"⟩,
   ⟨"I64x2Ne", "execute_i64x2_ne", "i64x2_ne"⟩,
   ⟨"I64x2LtS", "execute_i64x2_lt_s", "i64x2_lt_s"⟩,
   ⟨"I64x2LeS", "execute_i64x2_le_s", "i64x2_le_s"⟩,
   ⟨"F32x4Eq", "execute_f32x4_eq", "f32x4_eq"⟩,
   ⟨"F32x4Ne", "execute_f32x4_ne", "f32x4_ne"⟩,
   ⟨"F32x4Lt", "execute_f32x4_lt", "f32x4_lt"⟩,
   ⟨"F32x4Le", "execute_f32x4_le", "f32x4_le"⟩,
   ⟨"F64x2Eq", "execute_f64x2_eq", "f64x2_eq"⟩,
   ⟨"F64x2Ne", "execute_f64x2_ne", "f64x2_ne"⟩,
   ⟨"F64x2Lt", "execute_f64x2_lt", "f64x2_lt"⟩,
   ⟨"F64x2Le", "execute_f64x2_le", "f64x2_le"⟩,
   ⟨"I8x16MinS", "execute_i8x16_min_s", "i8x16_min_s"⟩,
   ⟨"I8x16MinU", "execute_i8x16_min_u", "i8x16_min_u"⟩,
   ⟨"I8x16MaxS", "execute_i8x16_max_s", "i8x16_max_s"⟩,
   ⟨"I8x16MaxU", "execute_i8x16_max_u", "i8x16_max_u"⟩,
   ⟨"I8x16AvgrU", "execute_i8x16_avgr_u", "i8x16_avgr_u"⟩,
   ⟨"I16x8MinS", "execute_i16x8_min_s", "i16x8_min_s"⟩,
   ⟨"I16x8MinU", "execute_i16x8_min_u", "i16x8_min_u"⟩,
   ⟨"I16x8MaxS", "execute_i16x8_max_s", "i16x8_max_s"⟩,
   ⟨"I16x8MaxU", "execute_i16x8_max_u", "i16x8_max_u"⟩]

/-- Rows 61–90 of the `impl_binary_executors!` table (`simd.rs` lines 140–268), in source order. -/
def binarySimdDispatchC : List DispatchRow :=
  [⟨"I16x8AvgrU", "execute_i16x8_avgr_u", "i16x8_avgr_u"⟩,
   ⟨"I32x4MinS", "execute_i32x4_min_s", "i32x4_min_s"⟩,
   ⟨"I32x4MinU", "execute_i32x4_min_u", "i32x4_min_u"⟩,
   ⟨"I32x4MaxS", "execute_i32x4_max_s", "i32x4_max_s"⟩,
   ⟨"I32x4MaxU", "execute_i32x4_max_u", "i32x4_max_u"⟩,
   ⟨"I8x16Shl", "execute_i8x16_shl", "i8x16_shl"⟩,
   ⟨"I8x16ShrS", "execute_i8x16_shr_s", "i8x16_shr_s"⟩,
   ⟨"I8x16ShrU", "execute_i8x16_shr_u", "i8x16_shr_u"⟩,
   ⟨"I16x8Shl", "execute_i16x8_shl", "i16x8_shl"⟩,
   ⟨"I16x8ShrS", "execute_i16x8_shr_s", "i16x8_shr_s"⟩,
   ⟨"I16x8ShrU", "execute_i16x8_shr_u", "i16x8_shr_u"⟩,
   ⟨"I32x4Shl", "execute_i32x4_shl", "i32x4_shl"⟩,
   ⟨"I32x4ShrS", "execute_i32x4_shr_s", "i32x4_shr_s"⟩,
   ⟨"I32x4ShrU", "execute_i32x4_shr_u", "i32x4_shr_u"⟩,
   ⟨"I64x2Shl", "execute_i64x2_shl", "i64x2_shl"⟩,
   ⟨"I64x2ShrS", "execute_i64x2_shr_s", "i64x2_shr_s"⟩,
   ⟨"I64x2ShrU", "execute_i64x2_shr_u", "i64x2_shr_u"⟩,
   ⟨"I8x16Add", "execute_i8x16_add", "i8x16_add"⟩,
   ⟨"I8x16AddSatS", "execute_i8x16_add_sat_s", "i8x16_add_sat_s"⟩,
   ⟨"I8x16AddSatU", "execute_i8x16_add_sat_u", "i8x16_add_sat_u"⟩,
   ⟨"I8x16Sub", "execute_i8x16_sub", "i8x16_sub"⟩,
   ⟨"I8x16SubSatS", "execute_i8x16_sub_sat_s", "i8x16_sub_sat_s"⟩,
   ⟨"I8x16SubSatU", "execute_i8x16_sub_sat_u", "i8x16_sub_sat_u"⟩,
   ⟨"I16x8Add", "execute_i16x8_add", "i16x8_add"⟩,
   ⟨"I16x8AddSatS", "execute_i16x8_add_sat_s", "i16x8_add_sat_s"⟩,
   ⟨"I16x8AddSatU", "execute_i16x8_add_sat_u", "i16x8_add_sat_u"⟩,
   ⟨"I16x8Sub", "execute_i16x8_sub", "i16x8_sub"⟩,
   ⟨"I16x8SubSatS", "execute_i16x8_sub_sat_s", "i16x8_sub_sat_s"⟩,
   ⟨"I16x8SubSatU", "execute_i16x8_sub_sat_u", "i16x8_sub_sat_u"⟩,
   ⟨"I16x8Sub", "execute_i16x8_mul", "i16x8_mul"⟩]

/-- Rows 91–114 of the `impl_binary_executors!` table (`simd.rs` lines 140–268), in source order. -/
def binarySimdDispatchD : List DispatchRow :=
  [⟨"V128And", "execute_v128_and", "v128_and"⟩,
   ⟨"V128Andnot", "execute_v128_andnot", "v128_andnot"⟩,
   ⟨"V128Or", "execute_v128_or", "v128_or"⟩,
   ⟨"V128Xor", "execute_v128_xor", "v128_xor"⟩,
   ⟨"F32x4Add", "execute_f32x4_add", "f32x4_add"⟩,
   ⟨"F32x4Sub", "execute_f32x4_sub", "f32x4_sub"⟩,
   ⟨"F32x4Mul", "execute_f32x4_mul", "f32x4_mul"⟩,
   ⟨"F32x4Div", "execute_f32x4_div", "f32x4_div"⟩,
   ⟨"F32x4Min", "execute_f32x4_min", "f32x4_min"⟩,
   ⟨"F32x4Max", "execute_f32x4_max", "f32x4_max"⟩,
   ⟨"F32x4Pmin", "execute_f32x4_pmin", "f32x4_pmin"⟩,
   ⟨"F32x4Pmax", "execute_f32x4_pmax", "f32x4_pmax"⟩,
   ⟨"F64x2Add", "execute_f64x2_add", "f64x2_add"⟩,
   ⟨"F64x2Sub", "execute_f64x2_sub", "f64x2_sub"⟩,
   ⟨"F64x2Mul", "execute_f64x2_mul", "f64x2_mul"⟩,
   ⟨"F64x2Div", "execute_f64x2_div", "f64x2_div"⟩,
   ⟨"F64x2Min", "execute_f64x2_min", "f64x2_min"⟩,
   ⟨"F64x2Max", "execute_f64x2_max", "f64x2_max"⟩,
   ⟨"F64x2Pmin", "execute_f64x2_pmin", "f64x2_pmin"⟩,
   ⟨"F64x2Pmax", "execute_f64x2_pmax", "f64x2_pmax"⟩,
   ⟨"I8x16NarrowI16x8S", "execute_i8x16_narrow_i16x8_s", "i8x16_narrow_i16x8_s"⟩,
   ⟨"I8x16NarrowI16x8U", "execute_i8x16_narrow_i16x8_u", "i8x16_narrow_i16x8_u"⟩,
   ⟨"I16x8NarrowI32x4S", "execute_i16x8_narrow_i32x4_s", "i16x8_narrow_i32x4_s"⟩,
   ⟨"I16x8NarrowI32x4U", "execute_i16x8_narrow_i32x4_u", "i16x8_narrow_i32x4_u"⟩]

/-- Embeds the `impl_binary_executors!` table (`simd.rs` lines 140–268),
row for row in source order (concatenation of the row chunks above). -/
def binarySimdDispatch : List DispatchRow :=
  binarySimdDispatchA ++ binarySimdDispatchB ++ binarySimdDispatchC ++ binarySimdDispatchD

/-- The `Instruction` tag a dispatch table registers for the SIMD
operation `op`, if any. -/
def simdTagOf (table : List DispatchRow) (op : String) : Option String :=
  (table.find? fun row => row.op = op).map DispatchRow.tag

/-- A dispatch table registers every operation under its own distinct tag
iff no tag appears in two different rows. -/
abbrev distinctTags (table : List DispatchRow) : Prop :=
  (table.map DispatchRow.tag).Nodup

/-- Host byte order: `u128::to_ne_bytes` is `to_le_bytes` on little-endian
hosts and `to_be_bytes` on big-endian hosts. -/
inductive Endian where
  | le
  | be
deriving DecidableEq, Repr

/-- The 16 bytes of a `u128` in the given host byte order
(`u128::to_ne_bytes`). -/
def to_ne_bytes16 (e : Endian) (v : Nat) : List Nat :=
  match e with
  | .le => leBytes 16 v
  | .be => (leBytes 16 v).reverse

/-- Modelled from the spec: `simd::i8x16_shuffle` of the wasmi core crate
(not under the sources provided). `v128` values use the little-endian
wire encoding, and lane `i` of the result is lane `sel[i]` of the 32-lane
concatenation of `lhs` (lanes 0–15) and `rhs` (lanes 16–31). -/
def i8x16_shuffle (lhs rhs : Nat) (sel : List Nat) : Nat :=
  fromLeBytes (sel.map fun s => if s < 16 then byteAt lhs s else byteAt rhs (s - 16))

/-- Embeds `Executor::execute_i8x16_shuffle` (`simd.rs` lines 33–52),
with the register fetches already resolved to the three `u128` cell
values: the selector lanes are decoded via `as_u128().to_ne_bytes()` —
host byte order, made explicit by the `Endian` parameter — each lane is
checked against `ImmLaneIdx32` (an out-of-bounds lane is the
`unreachable_unchecked` path, modelled as `none`), and the result is
`simd::i8x16_shuffle`. -/
def execute_i8x16_shuffle (e : Endian) (lhs rhs selector : Nat) : Option Nat :=
  let lanes := to_ne_bytes16 e selector
  if lanes.all (· < 32) then some (i8x16_shuffle lhs rhs lanes) else none

/-- Instructions of the register machine needed for the `select` and
`f64.max` translation patterns. `Reg` ids are `i16` values (negative ids
index the function constant pool). -/
inductive Instruction where
  | select_imm32 (reg : Int) (value : Int)
  | return_reg (reg : Int)
  | return_f64imm32 (bits : Nat)
  | f64_max (result lhs rhs : Int)
deriving DecidableEq, Repr

/-- Modelled from the spec: the translator's `select` lowering for the
case that both arms are small constants — "`select_imm32`/… (both are
small constants carried inline across two adjacent instruction slots)" —
followed by a return of the result register. The first slot carries the
result register and the lhs constant, the second carries the condition
register and the rhs constant. -/
def translate_select_both_imm32 (result condition lhs rhs : Int) : List Instruction :=
  [.select_imm32 result lhs, .select_imm32 condition rhs, .return_reg result]

/-- Functional update of a register file. -/
def setReg (regs : Int → Int) (r v : Int) : Int → Int :=
  fun x => if x = r then v else regs x

/-- Modelled from the spec: executing a `select_imm32` instruction pair
followed by `return_reg` — the executor consumes the two adjacent slots,
writes the lhs constant to the result register when the condition
register is non-zero and the rhs constant otherwise, and `return_reg`
yields the named register's value. Unexpected shapes are `none`
(internal-consistency violation). -/
def run_select_prog : List Instruction → (Int → Int) → Option Int
  | .select_imm32 r l :: .select_imm32 c rv :: rest, regs =>
    run_select_prog rest (setReg regs r (if regs c ≠ 0 then l else rv))
  | .return_reg r :: _, regs => some (regs r)
  | _, _ => none

/-- IEEE-754 binary64 bit patterns: NaN iff the exponent field is all
ones and the mantissa is non-zero. -/
def f64_is_nan (bits : Nat) : Bool :=
  ((bits >>> 52) &&& 0x7FF == 0x7FF) && (bits &&& 0xFFFFFFFFFFFFF != 0)

/-- The bit pattern of `f64::NEG_INFINITY`. -/
def f64_neg_infinity : Nat := 0xFFF0000000000000

/-- The bit pattern of Rust's `f64::NAN` constant. -/
def f64_nan : Nat := 0x7FF8000000000000

/-- Modelled from the spec: the translator's `f64.max` rewrite for a
register lhs and constant rhs — "`f64.max x, NaN → return NaN` (NaN input
wins regardless of the other side)" and "`max(x, -∞) → x` — emit copies
or constants rather than real ops". Otherwise the constant is allocated
to a constant-pool slot (register `-1`) and a plain `f64_max` into the
result register (first temporary, register 1) is emitted. -/
def translate_f64_max_reg_imm (reg : Int) (imm : Nat) : List Instruction :=
  if f64_is_nan imm then [.return_f64imm32 imm]
  else if imm = f64_neg_infinity then [.return_reg reg]
  else [.f64_max 1 reg (-1)]

/-- Modelled from the spec: the `f64.max` rewrite for a constant lhs and
register rhs; the identity rewrites apply in this operand order too, and
the fallback swaps the commutative operands to put the constant on the
right. -/
def translate_f64_max_imm_reg (imm : Nat) (reg : Int) : List Instruction :=
  if f64_is_nan imm then [.return_f64imm32 imm]
  else if imm = f64_neg_infinity then [.return_reg reg]
  else [.f64_max 1 reg (-1)]

/-- Frame condition for a `StoreOffset16`-family handler run `r` on state
`s` with effective address `ea` and store width `w`: non-default memories
and registers are untouched, the handler cannot reach the internal-panic
path (it never resolves a memory through the `Store`), and it either
succeeds — advancing `ip` by exactly one slot (no trailing parameter is
consumed) and changing at most the `w` addressed bytes of memory 0 — or
traps with `MemoryOutOfBounds` leaving the whole state unchanged. -/
abbrev StoreOffset16Frame (s : ExecState) (ea w : Nat) (r : StoreOutcome × ExecState) : Prop :=
  r.2.extraMems = s.extraMems ∧ r.2.regs = s.regs ∧ r.1 ≠ .panic ∧
  ((r.1 = .ok ∧ r.2.ip = s.ip + 1 ∧ r.2.mem0.length = s.mem0.length ∧
      ∀ j, r.2.mem0[j]? = s.mem0[j]? ∨ (ea ≤ j ∧ j < ea + w)) ∨
    (r.1 = .trap .MemoryOutOfBounds ∧ r.2 = s))

theorem leBytes_length (w v : Nat) : (leBytes w v).length = w := by
  simp [leBytes]

theorem writeBytes_length (bs : List Nat) (m : Mem) (a : Nat) :
    (writeBytes m a bs).length = m.length := by
  induction bs generalizing m a with
  | nil => rfl
  | cons b bs ih => simp [writeBytes, ih, List.length_set]

theorem writeBytes_getElem?_outside (bs : List Nat) (m : Mem) (a j : Nat)
    (h : j < a ∨ a + bs.length ≤ j) :
    (writeBytes m a bs)[j]? = m[j]? := by
  induction bs generalizing m a with
  | nil => rfl
  | cons b bs ih =>
    have hlen : (b :: bs).length = bs.length + 1 := rfl
    rw [hlen] at h
    have hne : a ≠ j := by omega
    rw [writeBytes, ih (m.set a b) (a + 1) (by omega), List.getElem?_set_ne hne]

theorem storeN_cases (w : Nat) (mem : Mem) (address offset value : Nat) :
    (∃ m, storeN w mem address offset value = Except.ok m ∧ m.length = mem.length ∧
        ∀ j, m[j]? = mem[j]? ∨ (address + offset ≤ j ∧ j < address + offset + w)) ∨
      storeN w mem address offset value = Except.error .MemoryOutOfBounds := by
  unfold storeN
  split_ifs with hb
  · refine Or.inl ⟨_, rfl, writeBytes_length _ _ _, fun j => ?_⟩
    by_cases hj : address + offset ≤ j ∧ j < address + offset + w
    · exact Or.inr hj
    · exact Or.inl (writeBytes_getElem?_outside _ _ _ _ (by rw [leBytes_length]; omega))
  · exact Or.inr rfl

/-- C1: the `ComparatorAndOffset` pack/unpack round-trip fails on the code
as written. At `x = (I32Eq, offset -12)` (spec scenario 6) the packed
value is `(0 <<< 32) &&& lo = 0`, so unpacking returns `(I32Eq, offset
0) ≠ x`; the spec's own packing (`hi` OR'd with the offset's low 32 bits)
round-trips at the same input. -/
theorem comparatorAndOffset_roundtrip_fails_on_code :
    ComparatorAndOffset.from_u64 (ComparatorAndOffset.as_u64 ⟨.I32Eq, ⟨-12⟩⟩) =
      some ⟨.I32Eq, ⟨0⟩⟩ ∧
    (some (⟨.I32Eq, ⟨0⟩⟩ : ComparatorAndOffset) ≠ some ⟨.I32Eq, ⟨-12⟩⟩) ∧
    ComparatorAndOffset.from_u64 (ComparatorAndOffset.as_u64_spec ⟨.I32Eq, ⟨-12⟩⟩) =
      some ⟨.I32Eq, ⟨-12⟩⟩ := by
  decide

/-- C2: the SIMD dispatch tables do not give every operation its own tag:
the rows for `i32x4_neg`, `i64x2_neg`, `f32x4_neg` and `f64x2_neg` reuse
`Instruction::I16x8Neg` (the tag of `i16x8_neg`), the corresponding `abs`
rows reuse `Instruction::I16x8Abs`, and the `i16x8_mul` row reuses
`Instruction::I16x8Sub` (the tag of `i16x8_sub`); consequently neither
table has pairwise-distinct tags. -/
theorem simd_dispatch_tags_reused :
    simdTagOf unarySimdDispatch "i16x8_neg" = some "I16x8Neg" ∧
    simdTagOf unarySimdDispatch "i32x4_neg" = some "I16x8Neg" ∧
    simdTagOf unarySimdDispatch "i64x2_neg" = some "I16x8Neg" ∧
    simdTagOf unarySimdDispatch "f32x4_neg" = some "I16x8Neg" ∧
    simdTagOf unarySimdDispatch "f64x2_neg" = some "I16x8Neg" ∧
    simdTagOf unarySimdDispatch "i16x8_abs" = some "I16x8Abs" ∧
    simdTagOf unarySimdDispatch "i32x4_abs" = some "I16x8Abs" ∧
    simdTagOf unarySimdDispatch "i64x2_abs" = some "I16x8Abs" ∧
    simdTagOf unarySimdDispatch "f32x4_abs" = some "I16x8Abs" ∧
    simdTagOf unarySimdDispatch "f64x2_abs" = some "I16x8Abs" ∧
    simdTagOf binarySimdDispatch "i16x8_sub" = some "I16x8Sub" ∧
    simdTagOf binarySimdDispatch "i16x8_mul" = some "I16x8Sub" ∧
    ¬ distinctTags unarySimdDispatch ∧
    ¬ distinctTags binarySimdDispatch := by
  decide

/-- C3: shuffle selector decoding is host-endian, not little-endian. On a
little-endian host, `i8x16.shuffle` of `lhs = [0..16]`, `rhs = [16..32]`
with selector `[0,16,1,17,…,7,23]` produces the interleaved bytes
`[0,16,…,7,23]`; on a big-endian host the same instruction decodes the
selector lanes reversed and produces `[23,7,22,6,…,16,0]` instead, so the
result is not the interleave on every platform. -/
theorem i8x16_shuffle_selector_host_endian :
    execute_i8x16_shuffle .le
        (fromLeBytes [0, 1, 2, 3, 4, 5, 6, 7, 8, 9, 10, 11, 12, 13, 14, 15])
        (fromLeBytes [16, 17, 18, 19, 20, 21, 22, 23, 24, 25, 26, 27, 28, 29, 30, 31])
        (fromLeBytes [0, 16, 1, 17, 2, 18, 3, 19, 4, 20, 5, 21, 6, 22, 7, 23]) =
      some (fromLeBytes [0, 16, 1, 17, 2, 18, 3, 19, 4, 20, 5, 21, 6, 22, 7, 23]) ∧
    execute_i8x16_shuffle .be
        (fromLeBytes [0, 1, 2, 3, 4, 5, 6, 7, 8, 9, 10, 11, 12, 13, 14, 15])
        (fromLeBytes [16, 17, 18, 19, 20, 21, 22, 23, 24, 25, 26, 27, 28, 29, 30, 31])
        (fromLeBytes [0, 16, 1, 17, 2, 18, 3, 19, 4, 20, 5, 21, 6, 22, 7, 23]) =
      some (fromLeBytes [23, 7, 22, 6, 21, 5, 20, 4, 19, 3, 18, 2, 17, 1, 16, 0]) ∧
    some (fromLeBytes [23, 7, 22, 6, 21, 5, 20, 4, 19, 3, 18, 2, 17, 1, 16, 0]) ≠
      some (fromLeBytes [0, 16, 1, 17, 2, 18, 3, 19, 4, 20, 5, 21, 6, 22, 7, 23]) := by
  decide

/-- C4: `BranchOffset::from_src_to_dst(a, b)` returns `Ok` with offset
`b - a` exactly when that difference fits in a signed 32-bit integer, and
`Err(BranchOffsetOutOfBounds)` otherwise, for all 32-bit instruction
positions `a`, `b` (the `i64` subtraction can never overflow, so the
`unreachable!` path is never taken). -/
theorem from_src_to_dst_spec (a b : Nat) (ha : a < 2 ^ 32) (hb : b < 2 ^ 32) :
    ((-(2 ^ 31) ≤ (b : Int) - (a : Int) ∧ (b : Int) - (a : Int) < 2 ^ 31) →
      BranchOffset.from_src_to_dst a b = .ok ⟨(b : Int) - (a : Int)⟩) ∧
    (¬(-(2 ^ 31) ≤ (b : Int) - (a : Int) ∧ (b : Int) - (a : Int) < 2 ^ 31) →
      BranchOffset.from_src_to_dst a b = .error .BranchOffsetOutOfBounds) := by
  have h64 : i64_checked_sub (b : Int) (a : Int) = some ((b : Int) - (a : Int)) := by
    unfold i64_checked_sub
    rw [if_pos (by omega)]
  unfold BranchOffset.from_src_to_dst
  rw [h64]
  dsimp only
  constructor
  · intro h
    rw [if_pos h]
  · intro h
    rw [if_neg h]

/-- Witness for C4: at `a = 3, b = 10` the offset is `Ok(7)`; at
`a = 2^32 - 1, b = 0` the difference `-(2^32 - 1)` does not fit in `i32`
and the result is `Err(BranchOffsetOutOfBounds)`. -/
theorem from_src_to_dst_spec_witness :
    BranchOffset.from_src_to_dst 3 10 = .ok ⟨7⟩ ∧
    BranchOffset.from_src_to_dst 4294967295 0 = .error .BranchOffsetOutOfBounds := by
  constructor
  · exact ((from_src_to_dst_spec 3 10 (by norm_num) (by norm_num)).1 (by norm_num)).trans
      (by norm_num)
  · exact (from_src_to_dst_spec 4294967295 0 (by norm_num) (by norm_num)).2 (by norm_num)

/-- C8: `BlockFuel::bump_by(a)` on counter `f` returns `Ok` and sets the
counter to `f + a` exactly when `f + a` fits in `u32`, and returns
`Err(BlockFuelOutOfBounds)` otherwise; the result is never `f + a`
reduced modulo `2^32`. -/
theorem bump_by_spec (f a : Nat) (_hf : f < 2 ^ 32) (_ha : a < 2 ^ 64) :
    (f + a < 2 ^ 32 → BlockFuel.bump_by f a = (.ok (), f + a)) ∧
    (2 ^ 32 ≤ f + a → BlockFuel.bump_by f a = (.error .BlockFuelOutOfBounds, f)) := by
  unfold BlockFuel.bump_by
  constructor
  · intro h
    rw [if_pos (by omega), if_pos h]
  · intro h
    by_cases h64 : f + a < 2 ^ 64
    · rw [if_pos h64, if_neg (by omega)]
    · rw [if_neg h64]

/-- Witness for C8: `bump_by 7` on counter 5 yields `Ok` with counter 12;
`bump_by 1` on counter `2^32 - 1` yields `Err(BlockFuelOutOfBounds)` with
the counter unchanged. -/
theorem bump_by_spec_witness :
    BlockFuel.bump_by 5 7 = (.ok (), 12) ∧
    BlockFuel.bump_by 4294967295 1 = (.error .BlockFuelOutOfBounds, 4294967295) := by
  constructor
  · exact (bump_by_spec 5 7 (by norm_num) (by norm_num)).1 (by norm_num)
  · exact (bump_by_spec 4294967295 1 (by norm_num) (by norm_num)).2 (by norm_num)

/-- C9: whenever `BlockFuel::bump_by` returns an error, the stored fuel
counter is exactly what it was before the call. -/
theorem bump_by_error_keeps_fuel (f a : Nat) (e : Error)
    (h : (BlockFuel.bump_by f a).1 = .error e) :
    (BlockFuel.bump_by f a).2 = f := by
  unfold BlockFuel.bump_by at h ⊢
  split_ifs at h ⊢ <;> simp_all

/-- Witness for C9: the failing `bump_by 1` on counter `2^32 - 1` leaves
the counter at `2^32 - 1`. -/
theorem bump_by_error_keeps_fuel_witness :
    (BlockFuel.bump_by 4294967295 1).2 = 4294967295 :=
  bump_by_error_keeps_fuel 4294967295 1 .BlockFuelOutOfBounds (by norm_num [BlockFuel.bump_by])

/-- C5: an `i32` store (width 4) at base address `0xFFFF_FFFC` and offset
0 into the default linear memory of one 64 KiB page traps with
`MemoryOutOfBounds`, and the executor state — the memory bytes included —
is exactly what it was before the failed store. -/
theorem i32_store_oob_traps_and_preserves_memory (regs : Int → Nat) (m0 : Mem)
    (extra : List Mem) (ip : Nat) (ptr vreg : Int)
    (hlen : m0.length = 65536) (hptr : regs ptr = 4294967292) :
    execute_store ⟨regs, m0, extra, ip⟩ ptr vreg 0 0 4 =
      (.trap .MemoryOutOfBounds, ⟨regs, m0, extra, ip⟩) := by
  have hs : storeN 4 m0 (regs ptr) 0 (regs vreg) = .error .MemoryOutOfBounds := by
    unfold storeN
    rw [if_neg (by rw [hptr, hlen]; norm_num)]
  unfold execute_store
  rw [if_pos rfl, hs]

/-- Witness for C5: the concrete one-page memory of zero bytes. -/
theorem i32_store_oob_traps_and_preserves_memory_witness :
    execute_store ⟨fun _ => 4294967292, List.replicate 65536 0, [], 0⟩ 0 1 0 0 4 =
      (.trap .MemoryOutOfBounds, ⟨fun _ => 4294967292, List.replicate 65536 0, [], 0⟩) :=
  i32_store_oob_traps_and_preserves_memory (fun _ => 4294967292) (List.replicate 65536 0)
    [] 0 0 1 (List.length_replicate _ _) rfl

/-- C6: translating `i32.const 42; i32.const -7; local.get 0; select`
(condition in register 0, result in register 1) yields exactly two
`select_imm32` slots — the first carrying the result register and the lhs
constant 42, the second carrying the condition register and the rhs
constant -7 — followed by `return_reg` of the result register; executing
the translated program returns -7 when the condition register holds 0 and
42 when it holds 1. -/
theorem select_both_imm32_translation_and_exec :
    translate_select_both_imm32 1 0 42 (-7) =
      [.select_imm32 1 42, .select_imm32 0 (-7), .return_reg 1] ∧
    run_select_prog (translate_select_both_imm32 1 0 42 (-7)) (fun _ => 0) = some (-7) ∧
    run_select_prog (translate_select_both_imm32 1 0 42 (-7)) (fun _ => 1) = some 42 := by
  refine ⟨rfl, ?_, ?_⟩ <;> decide

/-- C7: the `f64.max` algebraic rewrites fire in either operand order —
a NaN constant makes the translator emit a return of that NaN constant
regardless of which side the register operand is on, and a negative
infinity constant makes it emit a plain `return_reg` copy of the register
operand instead of a real `f64_max`. -/
theorem f64_max_identity_rewrites (reg : Int) (imm : Nat) :
    (f64_is_nan imm = true →
      translate_f64_max_reg_imm reg imm = [.return_f64imm32 imm] ∧
      translate_f64_max_imm_reg imm reg = [.return_f64imm32 imm]) ∧
    (imm = f64_neg_infinity →
      translate_f64_max_reg_imm reg imm = [.return_reg reg] ∧
      translate_f64_max_imm_reg imm reg = [.return_reg reg]) := by
  constructor
  · intro h
    constructor <;> simp [translate_f64_max_reg_imm, translate_f64_max_imm_reg, h]
  · intro h
    subst h
    have hn : f64_is_nan f64_neg_infinity = false := by decide
    constructor <;> simp [translate_f64_max_reg_imm, translate_f64_max_imm_reg, hn]

/-- Witness for C7: at the bit pattern of `f64::NAN` both operand orders
yield `return` of the NaN constant (register 0, as in the translator
tests), and at `f64::NEG_INFINITY` both yield `return_reg 0`. -/
theorem f64_max_identity_rewrites_witness :
    translate_f64_max_reg_imm 0 f64_nan = [.return_f64imm32 f64_nan] ∧
    translate_f64_max_imm_reg f64_nan 0 = [.return_f64imm32 f64_nan] ∧
    translate_f64_max_reg_imm 0 f64_neg_infinity = [.return_reg 0] ∧
    translate_f64_max_imm_reg f64_neg_infinity 0 = [.return_reg 0] :=
  ⟨((f64_max_identity_rewrites 0 f64_nan).1 (by decide)).1,
   ((f64_max_identity_rewrites 0 f64_nan).1 (by decide)).2,
   ((f64_max_identity_rewrites 0 f64_neg_infinity).2 rfl).1,
   ((f64_max_identity_rewrites 0 f64_neg_infinity).2 rfl).2⟩

/-- C10: every `StoreOffset16`-family handler (register-value and
immediate-value variants, any width `w`) satisfies the default-memory
frame condition: non-default memories and registers never change, the
`Store`-resolver panic path is unreachable, no trailing parameter slot is
consumed (`ip` advances by exactly 1 on success), and at most the `w`
bytes at effective address `regs(ptr) + offset16` of memory 0 change. -/
theorem store_offset16_frame (s : ExecState) (ptr vreg : Int) (off16 v w : Nat) :
    StoreOffset16Frame s (s.regs ptr + off16) w (execute_store_offset16 s ptr off16 vreg w) ∧
    StoreOffset16Frame s (s.regs ptr + off16) w
      (execute_store_offset16_imm16 s ptr off16 v w) := by
  constructor
  · rcases storeN_cases w s.mem0 (s.regs ptr) off16 (s.regs vreg) with ⟨m, hok, hlen, hout⟩ | herr
    · simp only [execute_store_offset16, hok]
      exact ⟨rfl, rfl, fun hcon => StoreOutcome.noConfusion hcon, Or.inl ⟨rfl, rfl, hlen, hout⟩⟩
    · simp only [execute_store_offset16, herr]
      exact ⟨rfl, rfl, fun hcon => StoreOutcome.noConfusion hcon, Or.inr ⟨rfl, rfl⟩⟩
  · rcases storeN_cases w s.mem0 (s.regs ptr) off16 v with ⟨m, hok, hlen, hout⟩ | herr
    · simp only [execute_store_offset16_imm16, hok]
      exact ⟨rfl, rfl, fun hcon => StoreOutcome.noConfusion hcon, Or.inl ⟨rfl, rfl, hlen, hout⟩⟩
    · simp only [execute_store_offset16_imm16, herr]
      exact ⟨rfl, rfl, fun hcon => StoreOutcome.noConfusion hcon, Or.inr ⟨rfl, rfl⟩⟩

/-- Witness for C10: a successful 4-byte `StoreOffset16` on an 8-byte
default memory leaves the non-default memories untouched. -/
theorem store_offset16_frame_witness :
    (execute_store_offset16 ⟨fun _ => 2, List.replicate 8 0, [[1, 2]], 7⟩ 0 1 0 4).2.extraMems =
      [[1, 2]] :=
  (store_offset16_frame ⟨fun _ => 2, List.replicate 8 0, [[1, 2]], 7⟩ 0 0 1 0 4).1.1

end Wasmi
